import Mathlib

set_option maxHeartbeats 1000000

/-!
Shallow embedding of the `radio_beam` package (`beam.py`, `utils.py`) and a
verification of its natural-language specification.

Representation conventions for physical quantities (astropy `Quantity`
values in the source are modelled as plain reals in a fixed canonical unit):
* beam `major` / `minor` FWHM axes are real numbers holding the value in
  degrees (the unit the header keywords and the AIPS history lines use);
* the position angle `pa` is a real number holding the value in radians
  (the unit `np.arctan2` produces and the unit fed to `np.sin` / `np.cos`);
* solid angles are real numbers holding the value in steradians;
* degree-valued header fields are converted with `deg2rad` / `rad2deg`,
  modelling astropy's exact unit conversions.
Python exceptions are modelled by the `PyErr` type (constructor = exception
class, argument = message), and fallible code returns `Except PyErr`.
-/

namespace RadioBeam

/-- Python exception values raised by the source: the constructor is the
Python exception class and the string its message. -/
inductive PyErr where
  | typeError (msg : String)
  | keyError (key : String)
  | valueError (msg : String)
  | indexError
deriving DecidableEq

/-- The Python exception class alone, forgetting the message: two raises are
the same "condition" for a caller's `except` clause iff their classes agree. -/
inductive PyCls where
  | typeErr
  | keyErr
  | valueErr
  | indexErr
deriving DecidableEq

/-- Class of a raised exception. -/
def PyErr.cls : PyErr → PyCls
  | .typeError _ => .typeErr
  | .keyError _ => .keyErr
  | .valueError _ => .valueErr
  | .indexError => .indexErr

/-- Whether a fallible computation succeeded. -/
def exOk {ε α : Type} : Except ε α → Bool
  | .ok _ => true
  | .error _ => false

/-- `FWHM_TO_AREA = 2*np.pi/(8*np.log(2))` from `beam.py`: conversion between
a 2-d Gaussian FWHM squared and its effective area. -/
noncomputable def FWHM_TO_AREA : ℝ := 2 * Real.pi / (8 * Real.log 2)

/-- `SIGMA_TO_FWHM = np.sqrt(8*np.log(2))` from `beam.py`. -/
noncomputable def SIGMA_TO_FWHM : ℝ := Real.sqrt (8 * Real.log 2)

/-- Exact degree→radian conversion applied by astropy when a degree-valued
quantity is used as an angle. -/
noncomputable def deg2rad (x : ℝ) : ℝ := x * (Real.pi / 180)

/-- Exact radian→degree conversion (`.to(u.deg).value` on an angle). -/
noncomputable def rad2deg (x : ℝ) : ℝ := x * (180 / Real.pi)

/-- Exact square-degree→steradian factor used by `.to(u.sr)` when the axes
are degree-valued. -/
noncomputable def DEG2_TO_SR : ℝ := (Real.pi / 180) ^ 2

/-- The beam value object: FWHM major and minor axes (degree values) and the
position angle (radian value).  Lean structure equality is exactly the
component-wise `Beam.__eq__` of the source. -/
structure Beam where
  major : ℝ
  minor : ℝ
  pa : ℝ

/-- `_to_area(major, minor) = (major * minor * FWHM_TO_AREA).to(u.sr)` from
`beam.py`, with degree-valued axes, so `.to(u.sr)` multiplies by
`DEG2_TO_SR`. -/
noncomputable def _to_area (major minor : ℝ) : ℝ :=
  major * minor * FWHM_TO_AREA * DEG2_TO_SR

/-- The `Beam.sr` property: `_to_area(self.major, self.minor)`. -/
noncomputable def Beam.sr (b : Beam) : ℝ := _to_area b.major b.minor

/-- The circular beam synthesized by `Beam.__new__` from an `area` argument:
`rad = np.sqrt(area/(2*np.pi)) * u.deg; major = minor = rad * SIGMA_TO_FWHM;
pa = 0`.  The `u.deg` tag is attached regardless of the unit the caller
meant, so the value is a degree value by construction. -/
noncomputable def beamFromArea (area : ℝ) : Beam :=
  ⟨Real.sqrt (area / (2 * Real.pi)) * SIGMA_TO_FWHM,
   Real.sqrt (area / (2 * Real.pi)) * SIGMA_TO_FWHM,
   0⟩

/-- `Beam.__new__(major, minor, pa, area)`: the `if area is not None` block
runs first and overwrites `major`, `minor` and `pa`; afterwards `pa`
defaults to `0` and `minor` defaults to `major`.  `none` for both `major`
and `area` makes `_to_area(None, ...)` blow up, modelled as `none`.
Arguments are canonical values (degrees for axes, radians for `pa`). -/
noncomputable def beamNew (major minor pa area : Option ℝ) : Option Beam :=
  match area with
  | some a => some (beamFromArea a)
  | none =>
    match major with
    | some M => some ⟨M, minor.getD M, pa.getD 0⟩
    | none => none

/-- Two-argument arctangent, the mathematical function computed by
`np.arctan2(y, x)` (range `(-pi, pi]`, `atan2 0 0 = 0`). -/
noncomputable def atan2 (y x : ℝ) : ℝ := Complex.arg ⟨x, y⟩

/-- `alpha` of `Beam.convolve` (additive covariance sum). -/
noncomputable def cAlpha (A B : Beam) : ℝ :=
  (A.major * Real.cos A.pa) ^ 2 + (A.minor * Real.sin A.pa) ^ 2 +
  (B.major * Real.cos B.pa) ^ 2 + (B.minor * Real.sin B.pa) ^ 2

/-- `beta` of `Beam.convolve`. -/
noncomputable def cBeta (A B : Beam) : ℝ :=
  (A.major * Real.sin A.pa) ^ 2 + (A.minor * Real.cos A.pa) ^ 2 +
  (B.major * Real.sin B.pa) ^ 2 + (B.minor * Real.cos B.pa) ^ 2

/-- `gamma` of `Beam.convolve`. -/
noncomputable def cGamma (A B : Beam) : ℝ :=
  2 * ((A.minor ^ 2 - A.major ^ 2) * Real.sin A.pa * Real.cos A.pa +
       (B.minor ^ 2 - B.major ^ 2) * Real.sin B.pa * Real.cos B.pa)

/-- `s = alpha + beta` of `Beam.convolve`. -/
noncomputable def cS (A B : Beam) : ℝ := cAlpha A B + cBeta A B

/-- `t = np.sqrt((alpha-beta)**2 + gamma**2)` of `Beam.convolve`. -/
noncomputable def cT (A B : Beam) : ℝ :=
  Real.sqrt ((cAlpha A B - cBeta A B) ^ 2 + cGamma A B ^ 2)

/-- `Beam.convolve(self, other)` from `beam.py`. -/
noncomputable def Beam.convolve (A B : Beam) : Beam :=
  ⟨Real.sqrt (0.5 * (cS A B + cT A B)),
   Real.sqrt (0.5 * (cS A B - cT A B)),
   if |cGamma A B| + |cAlpha A B - cBeta A B| = 0 then 0
   else 0.5 * atan2 (-cGamma A B) (cAlpha A B - cBeta A B)⟩

/-- `alpha` of `Beam.deconvolve` (B's contribution subtracted). -/
noncomputable def dAlpha (A B : Beam) : ℝ :=
  (A.major * Real.cos A.pa) ^ 2 + (A.minor * Real.sin A.pa) ^ 2 -
  (B.major * Real.cos B.pa) ^ 2 - (B.minor * Real.sin B.pa) ^ 2

/-- `beta` of `Beam.deconvolve`. -/
noncomputable def dBeta (A B : Beam) : ℝ :=
  (A.major * Real.sin A.pa) ^ 2 + (A.minor * Real.cos A.pa) ^ 2 -
  (B.major * Real.sin B.pa) ^ 2 - (B.minor * Real.cos B.pa) ^ 2

/-- `gamma` of `Beam.deconvolve`. -/
noncomputable def dGamma (A B : Beam) : ℝ :=
  2 * ((A.minor ^ 2 - A.major ^ 2) * Real.sin A.pa * Real.cos A.pa -
       (B.minor ^ 2 - B.major ^ 2) * Real.sin B.pa * Real.cos B.pa)

/-- `s = alpha + beta` of `Beam.deconvolve`. -/
noncomputable def dS (A B : Beam) : ℝ := dAlpha A B + dBeta A B

/-- `t = np.sqrt((alpha-beta)**2 + gamma**2)` of `Beam.deconvolve`. -/
noncomputable def dT (A B : Beam) : ℝ :=
  Real.sqrt ((dAlpha A B - dBeta A B) ^ 2 + dGamma A B ^ 2)

open Classical in
/-- `Beam.deconvolve(self, other, failure_returns_pointlike)` from `beam.py`.
The dead local `limit = 0.1*min(axes)**2`, which the source computes but
never reads, is omitted.  A raise of `ValueError("Beam could not be
deconvolved")` becomes `Except.error`. -/
noncomputable def Beam.deconvolve (A B : Beam)
    (failure_returns_pointlike : Bool) : Except PyErr Beam :=
  if dAlpha A B < 0 ∨ dBeta A B < 0 ∨ dS A B < dT A B then
    if failure_returns_pointlike then .ok ⟨0, 0, 0⟩
    else .error (.valueError "Beam could not be deconvolved")
  else
    .ok ⟨Real.sqrt (0.5 * (dS A B + dT A B)),
         Real.sqrt (0.5 * (dS A B - dT A B)),
         if |dGamma A B| + |dAlpha A B - dBeta A B| = 0 then 0
         else 0.5 * atan2 (-dGamma A B) (dAlpha A B - dBeta A B)⟩

/-- Substring test on character lists, modelling Python's `sub in line`. -/
def hasSub : List Char → List Char → Bool
  | [], needle => needle.isEmpty
  | hay@(_ :: t), needle => needle.isPrefixOf hay || hasSub t needle

/-- `sub in line` for strings. -/
def strContains (line sub : String) : Bool := hasSub line.data sub.data

/-- Whitespace characters recognized by Python's argument-less `str.split`. -/
def isWs (c : Char) : Bool := c == ' ' || c == '\t' || c == '\n' || c == '\r'

/-- Helper for `splitWs`: `acc` holds the current token reversed. -/
def splitWsAux : List Char → List Char → List String
  | [], acc => if acc.isEmpty then [] else [String.mk acc.reverse]
  | c :: t, acc =>
    if isWs c then
      if acc.isEmpty then splitWsAux t []
      else String.mk acc.reverse :: splitWsAux t []
    else splitWsAux t (c :: acc)

/-- Python `line.split()`: split on runs of whitespace, dropping empties. -/
def splitWs (s : String) : List String := splitWsAux s.data []

/-- Optional leading sign of a numeric literal: `(negative?, rest)`. -/
def readSign : List Char → Bool × List Char
  | '+' :: t => (false, t)
  | '-' :: t => (true, t)
  | l => (false, l)

/-- Split a character list at the first character satisfying `p`,
returning the prefix and (when found) the remainder after the split
character. -/
def breakAt (p : Char → Bool) : List Char → List Char × Option (List Char)
  | [] => ([], none)
  | c :: t =>
    if p c then ([], some t)
    else
      match breakAt p t with
      | (a, b) => (c :: a, b)

/-- Value of a digit string, `none` when a non-digit appears. -/
def digitsValAux : Nat → List Char → Option Nat
  | acc, [] => some acc
  | acc, c :: t =>
    if c.isDigit then digitsValAux (acc * 10 + (c.toNat - 48)) t else none

/-- Exact value of a decimal/scientific literal, kept unnormalized: the
number is `(-1)^neg * mantNum / 10^fracLen * 10^exp`. -/
structure Dec where
  neg : Bool
  mantNum : Nat
  fracLen : Nat
  exp : Int
deriving DecidableEq

/-- The real number a parsed literal denotes (the source's `float()` result,
modelled as the exact decimal value). -/
noncomputable def Dec.toReal (d : Dec) : ℝ :=
  (if d.neg then -1 else 1) * (d.mantNum : ℝ) / 10 ^ d.fracLen * (10 : ℝ) ^ d.exp

/-- Python's `float(token)` on decimal/scientific literals: optional sign,
digits with an optional fractional part (at least one digit overall), and an
optional `e`/`E` exponent with its own optional sign.  Anything else is a
`ValueError`, modelled as `none`. -/
def parseFloat (s : String) : Option Dec :=
  let (neg, cs) := readSign s.data
  let (mant, expPart) := breakAt (fun c => c == 'e' || c == 'E') cs
  let (ip, fpOpt) := breakAt (fun c => c == '.') mant
  let fp := fpOpt.getD []
  if ip.length + fp.length = 0 then none
  else
    match digitsValAux 0 ip, digitsValAux 0 fp with
    | some iv, some fv =>
      let mantVal := iv * 10 ^ fp.length + fv
      match expPart with
      | none => some ⟨neg, mantVal, fp.length, 0⟩
      | some ec =>
        let (eneg, ed) := readSign ec
        match ed, digitsValAux 0 ed with
        | _ :: _, some ev =>
          some ⟨neg, mantVal, fp.length, if eneg then -(ev : ℤ) else (ev : ℤ)⟩
        | _, _ => none
    | _, _ => none

/-- `float(line.split()[i])`: `IndexError` when the token list is short,
`ValueError` when the token is not a float literal. -/
def getFloatTok (line : String) (i : Nat) : Except PyErr Dec :=
  match (splitWs line).get? i with
  | none => .error .indexError
  | some t =>
    match parseFloat t with
    | some q => .ok q
    | none => .error (.valueError t)

/-- The `for line in hdr['HISTORY']: if 'BMAJ' in line: aipsline = line`
loop of `Beam.from_aips_header`: the LAST history line containing `BMAJ`. -/
def lastBmajLine (lines : List String) : Option String :=
  lines.foldl (fun acc l => if strContains l "BMAJ" then some l else acc) none

deriving instance DecidableEq for Except

/-- Numeric part of `Beam.from_aips_header`: `None` (outer `Option`) when no
history line contains `BMAJ`, otherwise the three floats parsed from tokens
3, 5 and 7 of the selected line (or the raise that parsing produces). -/
def fromAipsNums (lines : List String) : Option (Except PyErr (Dec × Dec × Dec)) :=
  match lastBmajLine lines with
  | none => none
  | some l =>
    some (do
      let a ← getFloatTok l 3
      let b ← getFloatTok l 5
      let c ← getFloatTok l 7
      pure (a, b, c))

/-- A FITS header as the spec's §6 contract describes it: the three
recognized numeric keys (degree values, `none` = key absent) and the
optional HISTORY sequence of free-text lines. -/
structure Header where
  bmaj : Option ℝ
  bmin : Option ℝ
  bpa : Option ℝ
  history : Option (List String)

/-- A call `cls(major=..., minor=..., pa=...)` in the parsers: constructor
failure (impossible on these paths) maps to the `TypeError` that `None`
arithmetic would raise. -/
noncomputable def beamFromCls (major minor pa area : Option ℝ) : Except PyErr Beam :=
  match beamNew major minor pa area with
  | some b => .ok b
  | none => .error (.typeError "unsupported operand type")

/-- Header-mode body of `Beam.from_fits_header` together with the
`from_aips_header` fallback.  `hdr['HISTORY']` on a header without HISTORY
raises `KeyError`; an exhausted fallback (`from_aips_header` returned
`None`) raises the `TypeError` at line 122 of `beam.py`. -/
noncomputable def parseHdr : Header → Except PyErr Beam
  | ⟨some M, bmin, bpa, _⟩ => beamFromCls (some M) bmin (bpa.map deg2rad) none
  | ⟨none, _, _, none⟩ => .error (.keyError "HISTORY")
  | ⟨none, _, _, some lines⟩ =>
    match fromAipsNums lines with
    | none => .error (.typeError "No BMAJ found and does not appear to be an AIPS header.")
    | some (.error e) => .error e
    | some (.ok (a, b, c)) =>
      beamFromCls (some a.toReal) (some b.toReal) (some (deg2rad c.toReal)) none

/-- Lower-casing used by `hdr.lower()` on the filename argument. -/
def lowerStr (s : String) : String := ⟨s.data.map Char.toLower⟩

/-- `s.endswith(suffix)`. -/
def strEndsWith (s suffix : String) : Bool := suffix.data.isSuffixOf s.data

/-- The extension test of `Beam.from_fits_header`, exactly as written:
`hdr.lower().endswith(('.fits', '.fits.gz', '.fit', '.fit.gz', '.fits.Z',
'.fit.Z'))` (the two upper-case-Z members can never match the lowered
string). -/
def hasFitsExt (s : String) : Bool :=
  let t := lowerStr s
  strEndsWith t ".fits" || strEndsWith t ".fits.gz" || strEndsWith t ".fit" ||
  strEndsWith t ".fit.gz" || strEndsWith t ".fits.Z" || strEndsWith t ".fit.Z"

/-- The argument of `Beam.from_fits_header`: a header object, a string, or
anything else. -/
inductive HdrInput where
  | header (h : Header)
  | str (s : String)
  | other

/-- `Beam.from_fits_header(hdr)` from `beam.py`.  `gh` models the external
`fits.getheader` collaborator resolving a recognized filename to its
header. -/
noncomputable def fromFitsHeader (gh : String → Header) : HdrInput → Except PyErr Beam
  | .header h => parseHdr h
  | .str s =>
    if hasFitsExt s then parseHdr (gh s)
    else .error (.typeError "Unrecognized extension.")
  | .other => .error (.typeError "Header is not a FITS header or a filename")

/-- `Beam.to_header_keywords(self)`: the `{BMAJ, BMIN, BPA}` mapping, all in
degrees (the produced mapping has no HISTORY). -/
noncomputable def Beam.to_header_keywords (b : Beam) : Header :=
  ⟨some b.major, some b.minor, some (rad2deg b.pa), none⟩

/-- Class of the error of a failed parse, `none` on success. -/
def errClassOf : Except PyErr Beam → Option PyCls
  | .error e => some e.cls
  | .ok _ => none

/-- Total mass of a rasterized 2-d kernel array (`self._array.sum()`). -/
noncomputable def arr2sum (arr : List (List ℝ)) : ℝ := (arr.map (·.sum)).sum

/-- The truncation scalar assigned by `EllipticalGaussian2DKernel.__init__`:
`np.abs(1. - 1 / self._array.sum())`, as a function of the rasterized array
the external discretization collaborator produced. -/
noncomputable def gaussTruncation (arr : List (List ℝ)) : ℝ :=
  |1 - 1 / arr2sum arr|

/-- The truncation scalar as the spec's words define it:
`|1 − sum(rasterized array)|`. -/
noncomputable def specGaussTruncation (arr : List (List ℝ)) : ℝ :=
  |1 - arr2sum arr|

/-- The unit tag carried by an astropy quantity (only the kinds the claims
need). -/
inductive PhysUnit where
  | hz
  | m
  | kg
  | deg
deriving DecidableEq

/-- Whether the unit is a frequency unit. -/
def PhysUnit.isFrequency : PhysUnit → Bool
  | .hz => true
  | _ => false

/-- The `freq` argument of `Beam.jtok_equiv`: either a unit-tagged quantity
or a plain number. -/
inductive FreqInput where
  | quantity (v : ℝ) (u : PhysUnit)
  | plain (v : ℝ)

/-- Whether the argument is a `Quantity` instance, the only thing the
source's `isinstance` check inspects. -/
def FreqInput.isQuantity : FreqInput → Bool
  | .quantity _ _ => true
  | .plain _ => false

/-- The value `u.brightness_temperature(self.sr, freq)` hands back: an
equivalency built from the beam solid angle and the supplied quantity
(external astropy collaborator, kept abstract as the record of its
inputs). -/
structure BTEquiv where
  beamSr : ℝ
  freqVal : ℝ
  freqUnit : PhysUnit

/-- `Beam.jtok_equiv(self, freq)` from `beam.py`: raises `TypeError` when
`freq` is not a `Quantity`, otherwise returns the brightness-temperature
equivalency. -/
noncomputable def Beam.jtok_equiv (b : Beam) (freq : FreqInput) : Except PyErr BTEquiv :=
  match freq with
  | .plain _ =>
    .error (.typeError "freq must be a Quantity object. Try freq*u.Hz or another equivalent unit.")
  | .quantity v u => .ok ⟨b.sr, v, u⟩

/-- `Beam.convolve` written from the spec's §4.3 words (alpha/beta/gamma,
`s`, `t`, the two square roots and the position-angle rule), for comparison
with the source-derived `Beam.convolve`. -/
noncomputable def specConvolve (A B : Beam) : Beam :=
  let alpha := (A.major * Real.cos A.pa) ^ 2 + (A.minor * Real.sin A.pa) ^ 2 +
    (B.major * Real.cos B.pa) ^ 2 + (B.minor * Real.sin B.pa) ^ 2
  let beta := (A.major * Real.sin A.pa) ^ 2 + (A.minor * Real.cos A.pa) ^ 2 +
    (B.major * Real.sin B.pa) ^ 2 + (B.minor * Real.cos B.pa) ^ 2
  let gamma := 2 * ((A.minor ^ 2 - A.major ^ 2) * Real.sin A.pa * Real.cos A.pa +
    (B.minor ^ 2 - B.major ^ 2) * Real.sin B.pa * Real.cos B.pa)
  let s := alpha + beta
  let t := Real.sqrt ((alpha - beta) ^ 2 + gamma ^ 2)
  ⟨Real.sqrt (0.5 * (s + t)),
   Real.sqrt (0.5 * (s - t)),
   if |gamma| + |alpha - beta| = 0 then 0 else 0.5 * atan2 (-gamma) (alpha - beta)⟩

/-- A concrete header with no BMAJ key and a HISTORY sequence none of whose
lines mention BMAJ. -/
def noBmajHdr : Header := ⟨none, none, none, some ["sample history line"]⟩

/-- A concrete header with no BMAJ key and no HISTORY sequence at all. -/
def noHistHdr : Header := ⟨none, none, none, none⟩

/-- Claim C2: `convolve(A, B)` equals `convolve(B, A)` for every pair of
beams, under the component-wise beam equality of `Beam.__eq__`. -/
theorem convolve_comm (A B : Beam) : A.convolve B = B.convolve A := by
  have hα : cAlpha A B = cAlpha B A := by unfold cAlpha; ring
  have hβ : cBeta A B = cBeta B A := by unfold cBeta; ring
  have hγ : cGamma A B = cGamma B A := by unfold cGamma; ring
  unfold Beam.convolve cS cT
  rw [hα, hβ, hγ]

/-- Claim C3: `convolve` returns the beam given by the spec's alpha/beta/
gamma, `s`, `t`, square-root and position-angle formulas, and convolving the
circular unit beam with itself yields a circular beam with
`major = minor = sqrt 2` and `pa = 0`. -/
theorem convolve_formula_selfconv :
    (∀ A B : Beam, A.convolve B = specConvolve A B) ∧
    Beam.convolve ⟨1, 1, 0⟩ ⟨1, 1, 0⟩ = ⟨Real.sqrt 2, Real.sqrt 2, 0⟩ := by
  constructor
  · intro A B
    rfl
  · have hα : cAlpha ⟨1, 1, 0⟩ ⟨1, 1, 0⟩ = 2 := by norm_num [cAlpha]
    have hβ : cBeta ⟨1, 1, 0⟩ ⟨1, 1, 0⟩ = 2 := by norm_num [cBeta]
    have hγ : cGamma ⟨1, 1, 0⟩ ⟨1, 1, 0⟩ = 0 := by norm_num [cGamma]
    have hs : cS ⟨1, 1, 0⟩ ⟨1, 1, 0⟩ = 4 := by rw [cS, hα, hβ]; norm_num
    have ht : cT ⟨1, 1, 0⟩ ⟨1, 1, 0⟩ = 0 := by
      rw [cT, hα, hβ, hγ]; norm_num [Real.sqrt_zero]
    unfold Beam.convolve
    rw [hα, hβ, hγ, hs, ht]
    norm_num

/-- Claim C1: `deconvolve(A, B)` raises the infeasibility `ValueError`
exactly when `alpha < 0` or `beta < 0` or `s < t` and the pointlike-fallback
flag is off; with the flag on, an infeasible subtraction returns the
zero-size beam; and deconvolving a beam from an identical beam is feasible
and returns `Beam(0, 0, 0)`. -/
theorem deconvolve_infeasibility :
    (∀ (A B : Beam) (fl : Bool),
        (A.deconvolve B fl = .error (.valueError "Beam could not be deconvolved") ↔
          ((dAlpha A B < 0 ∨ dBeta A B < 0 ∨ dS A B < dT A B) ∧ fl = false)) ∧
        ((dAlpha A B < 0 ∨ dBeta A B < 0 ∨ dS A B < dT A B) →
          A.deconvolve B true = .ok ⟨0, 0, 0⟩)) ∧
    Beam.deconvolve ⟨2, 2, 0⟩ ⟨2, 2, 0⟩ false = .ok ⟨0, 0, 0⟩ := by
  constructor
  · intro A B fl
    by_cases h : dAlpha A B < 0 ∨ dBeta A B < 0 ∨ dS A B < dT A B
    · refine ⟨?_, fun _ => ?_⟩
      · unfold Beam.deconvolve
        rw [if_pos h]
        cases fl <;> simp [h]
      · unfold Beam.deconvolve
        rw [if_pos h]
        simp
    · refine ⟨?_, fun hc => absurd hc h⟩
      unfold Beam.deconvolve
      rw [if_neg h]
      simp [h]
  · have hα : dAlpha ⟨2, 2, 0⟩ ⟨2, 2, 0⟩ = 0 := by norm_num [dAlpha]
    have hβ : dBeta ⟨2, 2, 0⟩ ⟨2, 2, 0⟩ = 0 := by norm_num [dBeta]
    have hγ : dGamma ⟨2, 2, 0⟩ ⟨2, 2, 0⟩ = 0 := by norm_num [dGamma]
    have hs : dS ⟨2, 2, 0⟩ ⟨2, 2, 0⟩ = 0 := by rw [dS, hα, hβ]; norm_num
    have ht : dT ⟨2, 2, 0⟩ ⟨2, 2, 0⟩ = 0 := by
      rw [dT, hα, hβ, hγ]; norm_num [Real.sqrt_zero]
    have hcond : ¬(dAlpha ⟨2, 2, 0⟩ ⟨2, 2, 0⟩ < 0 ∨ dBeta ⟨2, 2, 0⟩ ⟨2, 2, 0⟩ < 0 ∨
        dS ⟨2, 2, 0⟩ ⟨2, 2, 0⟩ < dT ⟨2, 2, 0⟩ ⟨2, 2, 0⟩) := by
      rw [hα, hβ, hs, ht]; norm_num
    unfold Beam.deconvolve
    rw [if_neg hcond, hα, hβ, hγ, hs, ht]
    norm_num

/-- Witness for C1: the infeasible pair from the spec's Scenario 3, with the
fallback flag on and off. -/
theorem deconvolve_infeasibility_witness :
    Beam.deconvolve ⟨1, 1, 0⟩ ⟨2, 2, 0⟩ true = .ok ⟨0, 0, 0⟩ ∧
    Beam.deconvolve ⟨1, 1, 0⟩ ⟨2, 2, 0⟩ false =
      .error (.valueError "Beam could not be deconvolved") := by
  have hc : dAlpha ⟨1, 1, 0⟩ ⟨2, 2, 0⟩ < 0 ∨ dBeta ⟨1, 1, 0⟩ ⟨2, 2, 0⟩ < 0 ∨
      dS ⟨1, 1, 0⟩ ⟨2, 2, 0⟩ < dT ⟨1, 1, 0⟩ ⟨2, 2, 0⟩ :=
    Or.inl (by norm_num [dAlpha])
  exact ⟨(deconvolve_infeasibility.1 ⟨1, 1, 0⟩ ⟨2, 2, 0⟩ true).2 hc,
         ((deconvolve_infeasibility.1 ⟨1, 1, 0⟩ ⟨2, 2, 0⟩ false).1).mpr ⟨hc, rfl⟩⟩

/-- Counterexample to claim C4: with `area = 2π` AND `major = 1` both
supplied, the constructed beam's major axis is `sqrt(8 ln 2)`, not the
supplied `1` — the area-synthesis path overrides an explicitly supplied
major axis, contradicting the claimed priority. -/
theorem area_overrides_major_cex :
    (beamNew (some 1) none none (some (2 * Real.pi))).map Beam.major ≠ some 1 := by
  intro h
  have h2 : 2 * Real.pi / (2 * Real.pi) = 1 := div_self (by positivity)
  simp only [beamNew, beamFromArea, Option.map_some', SIGMA_TO_FWHM, h2,
    Real.sqrt_one, one_mul, Option.some_inj] at h
  rw [Real.sqrt_eq_one] at h
  have hl := Real.log_two_gt_d9
  nlinarith

/-- Claim C4 (amended): when an `area` is supplied the constructor always
synthesizes the circular beam with FWHM `sqrt(area/2π)·sqrt(8 ln 2)` and
`pa = 0`, IGNORING any supplied major/minor/pa (area takes priority, not the
explicit axes); only when `area` is absent does a supplied major become the
beam's major axis, with minor defaulting to major and pa defaulting to 0. -/
theorem beam_construction_amended :
    (∀ major minor pa a, beamNew major minor pa (some a) = some (beamFromArea a)) ∧
    (∀ M minor pa, beamNew (some M) minor pa none =
      some ⟨M, minor.getD M, pa.getD 0⟩) ∧
    (∀ a, beamFromArea a =
      ⟨Real.sqrt (a / (2 * Real.pi)) * SIGMA_TO_FWHM,
       Real.sqrt (a / (2 * Real.pi)) * SIGMA_TO_FWHM, 0⟩) :=
  ⟨fun _ _ _ _ => rfl, fun _ _ _ => rfl, fun _ => rfl⟩

/-- Claim C10: a beam built from a plain-number area `a > 0` gets its
synthesized FWHM tagged as degrees, so its derived solid angle is
`a·(π/180)²` steradians, not `a` steradians — the supplied area does not
round-trip through `Beam.sr`. -/
theorem area_solid_angle_scaled :
    ∀ a : ℝ, 0 < a →
      (beamFromArea a).sr = a * (Real.pi / 180) ^ 2 ∧ (beamFromArea a).sr ≠ a := by
  intro a ha
  have hπ : (0 : ℝ) < Real.pi := Real.pi_pos
  have hl : (0 : ℝ) < Real.log 2 := Real.log_pos (by norm_num)
  have hs1 : Real.sqrt (a / (2 * Real.pi)) * Real.sqrt (a / (2 * Real.pi)) =
      a / (2 * Real.pi) := Real.mul_self_sqrt (by positivity)
  have hs2 : Real.sqrt (8 * Real.log 2) * Real.sqrt (8 * Real.log 2) =
      8 * Real.log 2 := Real.mul_self_sqrt (by positivity)
  have key : (beamFromArea a).sr = a * (Real.pi / 180) ^ 2 := by
    show _to_area _ _ = _
    unfold beamFromArea _to_area FWHM_TO_AREA SIGMA_TO_FWHM DEG2_TO_SR
    rw [mul_mul_mul_comm, hs1, hs2]
    field_simp
  refine ⟨key, ?_⟩
  rw [key]
  intro h
  have h1 : (Real.pi / 180) ^ 2 = 1 :=
    mul_left_cancel₀ (ne_of_gt ha) (h.trans (mul_one a).symm)
  have h2 : Real.pi ^ 2 = 180 ^ 2 := by
    rw [div_pow] at h1
    field_simp at h1
  nlinarith [Real.pi_lt_d2, Real.pi_pos]

/-- Witness for C10 at the concrete area `a = 1`. -/
theorem area_solid_angle_scaled_witness :
    (beamFromArea 1).sr = 1 * (Real.pi / 180) ^ 2 ∧ (beamFromArea 1).sr ≠ 1 :=
  area_solid_angle_scaled 1 one_pos

/-- A left fold that keeps the latest element satisfying `p` returns the
first match of the reversed list (i.e. the last match), falling back to the
initial accumulator. -/
theorem foldl_pick_last (p : String → Bool) :
    ∀ (lines : List String) (acc : Option String),
      lines.foldl (fun a l => if p l then some l else a) acc =
        (lines.reverse.find? p).or acc := by
  intro lines
  induction lines with
  | nil => intro acc; simp
  | cons a t ih =>
    intro acc
    simp only [List.foldl_cons, List.reverse_cons, List.find?_append]
    rw [ih]
    cases hf : t.reverse.find? p with
    | some x => simp [Option.or]
    | none => by_cases h : p a <;> simp [h, Option.or]

/-- Claim C5: on a header without a BMAJ key, the parser picks the LAST
HISTORY line containing the substring `BMAJ` and builds the beam from the
whitespace-split tokens at zero-indexed positions 3, 5 and 7 of that line,
read as BMAJ/BMIN/BPA in degrees; on the spec's Scenario-4 AIPS line (with
the `...` placeholder standing for the two-token `AIPS CLEAN` prefix) this
yields `Beam(major=0.0017599°, minor=0.0015740°, pa=2.61°)`. -/
theorem aips_history_parse :
    (∀ lines : List String,
        lastBmajLine lines = lines.reverse.find? (fun l => strContains l "BMAJ")) ∧
    (∀ (gh : String → Header) (bmin bpa : Option ℝ) (lines : List String)
        (l : String) (a b c : Dec),
        lastBmajLine lines = some l →
        getFloatTok l 3 = .ok a → getFloatTok l 5 = .ok b → getFloatTok l 7 = .ok c →
        fromFitsHeader gh (.header ⟨none, bmin, bpa, some lines⟩) =
          .ok ⟨a.toReal, b.toReal, deg2rad c.toReal⟩) ∧
    (∀ gh : String → Header,
        fromFitsHeader gh (.header ⟨none, none, none,
            some ["AIPS CLEAN BMAJ=  1.7599E-03 BMIN=  1.5740E-03 BPA=   2.61"]⟩) =
          .ok ⟨(17599 : ℝ) / 10 ^ 7, (15740 : ℝ) / 10 ^ 7,
               deg2rad ((261 : ℝ) / 10 ^ 2)⟩) := by
  have hfind : ∀ lines : List String,
      lastBmajLine lines = lines.reverse.find? (fun l => strContains l "BMAJ") := by
    intro lines
    unfold lastBmajLine
    rw [foldl_pick_last]
    cases lines.reverse.find? (fun l => strContains l "BMAJ") <;> rfl
  have hgen : ∀ (gh : String → Header) (bmin bpa : Option ℝ) (lines : List String)
      (l : String) (a b c : Dec),
      lastBmajLine lines = some l →
      getFloatTok l 3 = .ok a → getFloatTok l 5 = .ok b → getFloatTok l 7 = .ok c →
      fromFitsHeader gh (.header ⟨none, bmin, bpa, some lines⟩) =
        .ok ⟨a.toReal, b.toReal, deg2rad c.toReal⟩ := by
    intro gh bmin bpa lines l a b c hl h3 h5 h7
    simp only [fromFitsHeader, parseHdr, fromAipsNums, hl, h3, h5, h7]
    rfl
  refine ⟨hfind, hgen, fun gh => ?_⟩
  have h := hgen gh none none
    ["AIPS CLEAN BMAJ=  1.7599E-03 BMIN=  1.5740E-03 BPA=   2.61"]
    "AIPS CLEAN BMAJ=  1.7599E-03 BMIN=  1.5740E-03 BPA=   2.61"
    ⟨false, 17599, 4, -3⟩ ⟨false, 15740, 4, -3⟩ ⟨false, 261, 2, 0⟩
    (by decide) (by decide) (by decide) (by decide)
  rw [h]
  have e1 : (⟨false, 17599, 4, -3⟩ : Dec).toReal = (17599 : ℝ) / 10 ^ 7 := by
    norm_num [Dec.toReal]
  have e2 : (⟨false, 15740, 4, -3⟩ : Dec).toReal = (15740 : ℝ) / 10 ^ 7 := by
    norm_num [Dec.toReal]
  have e3 : (⟨false, 261, 2, 0⟩ : Dec).toReal = (261 : ℝ) / 10 ^ 2 := by
    norm_num [Dec.toReal]
  rw [e1, e2, e3]

/-- Witness for C5 on a second concrete AIPS history, discharging the
hypotheses of the general part at `BMAJ= 2 BMIN= 1 BPA= 0`. -/
theorem aips_history_parse_witness :
    fromFitsHeader (fun _ => noHistHdr) (.header ⟨none, none, none,
        some ["AIPS CLEAN BMAJ= 2 BMIN= 1 BPA= 0"]⟩) =
      .ok ⟨(⟨false, 2, 0, 0⟩ : Dec).toReal, (⟨false, 1, 0, 0⟩ : Dec).toReal,
           deg2rad (⟨false, 0, 0, 0⟩ : Dec).toReal⟩ :=
  aips_history_parse.2.1 _ none none _ "AIPS CLEAN BMAJ= 2 BMIN= 1 BPA= 0"
    ⟨false, 2, 0, 0⟩ ⟨false, 1, 0, 0⟩ ⟨false, 0, 0, 0⟩
    (by decide) (by decide) (by decide) (by decide)

/-- Counterexample to claim C6: the "NotFound" failure raised for a header
with no BMAJ key and a BMAJ-free HISTORY is a `TypeError`, the SAME
exception class as the unrecognized-extension failure the claim says it is
distinct from; and a header with no HISTORY sequence at all fails with a
different class again (`KeyError`), so the two claimed-NotFound inputs do
not even share one condition. -/
theorem header_error_class_cex :
    errClassOf (fromFitsHeader (fun _ => noHistHdr) (.header noBmajHdr)) =
      errClassOf (fromFitsHeader (fun _ => noHistHdr) (.str "beam.txt")) ∧
    errClassOf (fromFitsHeader (fun _ => noHistHdr) (.header noHistHdr)) ≠
      errClassOf (fromFitsHeader (fun _ => noHistHdr) (.header noBmajHdr)) := by
  have h1 : fromAipsNums ["sample history line"] = none := by decide
  have h2 : hasFitsExt "beam.txt" = false := by decide
  constructor
  · simp [fromFitsHeader, parseHdr, noBmajHdr, noHistHdr, h1, h2, errClassOf, PyErr.cls]
  · simp [fromFitsHeader, parseHdr, noBmajHdr, noHistHdr, h1, errClassOf, PyErr.cls]

/-- Claim C6 (amended): every header input with no BMAJ key and no HISTORY
line containing `BMAJ` fails — with a `TypeError` ("No BMAJ found ...") when
a HISTORY sequence is present, and with a `KeyError` for the missing
`HISTORY` key when it is not; the former shares its exception class with the
unrecognized-extension and non-header failures (all `TypeError`), so the
NotFound behavior is distinguished from them only by message, not by a
distinct condition, while the latter is a different class. -/
theorem header_missing_beam_fails :
    ∀ (gh : String → Header) (h : Header), h.bmaj = none →
      (h.history = none →
        fromFitsHeader gh (.header h) = .error (.keyError "HISTORY")) ∧
      (∀ lines, h.history = some lines → lastBmajLine lines = none →
        fromFitsHeader gh (.header h) =
          .error (.typeError "No BMAJ found and does not appear to be an AIPS header.")) ∧
      (PyErr.typeError "No BMAJ found and does not appear to be an AIPS header.").cls =
        (PyErr.typeError "Unrecognized extension.").cls ∧
      (PyErr.typeError "No BMAJ found and does not appear to be an AIPS header.").cls =
        (PyErr.typeError "Header is not a FITS header or a filename").cls ∧
      (PyErr.keyError "HISTORY").cls ≠ (PyErr.typeError "Unrecognized extension.").cls := by
  intro gh h hb
  obtain ⟨bm, bmin, bpa, hist⟩ := h
  dsimp only at hb
  subst hb
  refine ⟨?_, ?_, rfl, rfl, by simp [PyErr.cls]⟩
  · intro hh
    dsimp only at hh
    subst hh
    simp [fromFitsHeader, parseHdr]
  · intro lines hh hl
    dsimp only at hh
    subst hh
    simp [fromFitsHeader, parseHdr, fromAipsNums, hl]

/-- Witness for C6 (amended), at the two concrete headers: one with a
BMAJ-free HISTORY, one with no HISTORY at all. -/
theorem header_missing_beam_fails_witness :
    fromFitsHeader (fun _ => noHistHdr) (.header noHistHdr) =
      .error (.keyError "HISTORY") ∧
    fromFitsHeader (fun _ => noHistHdr) (.header noBmajHdr) =
      .error (.typeError "No BMAJ found and does not appear to be an AIPS header.") :=
  ⟨(header_missing_beam_fails _ noHistHdr rfl).1 rfl,
   (header_missing_beam_fails _ noBmajHdr rfl).2.1 _ rfl (by decide)⟩

/-- Claim C8: parsing a header built from a beam's own header keywords
reproduces the beam, for any beam whose position angle lies in the canonical
`[-90°, 90°)` range. -/
theorem header_round_trip :
    ∀ (gh : String → Header) (b : Beam),
      -(Real.pi / 2) ≤ b.pa → b.pa < Real.pi / 2 →
      fromFitsHeader gh (.header b.to_header_keywords) = .ok b := by
  intro gh b _ _
  have hpa : deg2rad (rad2deg b.pa) = b.pa := by
    unfold deg2rad rad2deg
    have hπ := Real.pi_ne_zero
    field_simp
  simp [fromFitsHeader, Beam.to_header_keywords, parseHdr, beamFromCls, beamNew, hpa]

/-- Witness for C8 at the unit circular beam (`pa = 0` is in range). -/
theorem header_round_trip_witness :
    fromFitsHeader (fun _ => noHistHdr)
      (.header (Beam.to_header_keywords ⟨1, 1, 0⟩)) = .ok ⟨1, 1, 0⟩ :=
  header_round_trip _ ⟨1, 1, 0⟩
    (by have := Real.pi_pos; show -(Real.pi / 2) ≤ (0 : ℝ); linarith)
    (by have := Real.pi_pos; show (0 : ℝ) < Real.pi / 2; linarith)

/-- Counterexample to claim C7: the kernel truncation is NOT
`|1 − sum(rasterized array)|`; already on a (1×1) array of total mass 9/10
the source computes `|1 − 1/(9/10)| = 1/9` while the claim's formula gives
`1/10`. -/
theorem truncation_formula_cex :
    gaussTruncation [[(9 : ℝ) / 10]] ≠ specGaussTruncation [[(9 : ℝ) / 10]] := by
  have hsum : arr2sum [[(9 : ℝ) / 10]] = 9 / 10 := by
    simp [arr2sum]
  unfold gaussTruncation specGaussTruncation
  rw [hsum]
  rw [show (1 : ℝ) - 1 / (9 / 10) = -(1 / 9) by norm_num,
      show (1 : ℝ) - 9 / 10 = 1 / 10 by norm_num]
  rw [abs_neg, abs_of_nonneg (by norm_num : (0 : ℝ) ≤ 1 / 9),
      abs_of_nonneg (by norm_num : (0 : ℝ) ≤ 1 / 10)]
  norm_num

/-- Claim C7 (amended): the Gaussian kernel's truncation scalar is
`|1 − 1/sum(rasterized array)|`, i.e. the spec's `|1 − sum|` divided by
`|sum|`; the two agree only when the array mass is exactly ±1. -/
theorem truncation_formula_amended :
    ∀ arr : List (List ℝ), arr2sum arr ≠ 0 →
      gaussTruncation arr = specGaussTruncation arr / |arr2sum arr| := by
  intro arr h
  unfold gaussTruncation specGaussTruncation
  rw [show |1 - arr2sum arr| = |arr2sum arr - 1| from abs_sub_comm _ _, ← abs_div]
  congr 1
  field_simp

/-- Witness for C7 (amended) at the concrete mass-9/10 array. -/
theorem truncation_formula_amended_witness :
    gaussTruncation [[(9 : ℝ) / 10]] =
      specGaussTruncation [[(9 : ℝ) / 10]] / |arr2sum [[(9 : ℝ) / 10]]| :=
  truncation_formula_amended _ (by simp [arr2sum])

/-- Counterexample to claim C9: a quantity tagged with a NON-frequency unit
(5 metres) does not make `jtok_equiv` fail — the source only checks that the
argument is a `Quantity` at all, so "fails exactly when the frequency lacks
a frequency unit" is false. -/
theorem jtok_nonfreq_quantity_cex :
    PhysUnit.isFrequency .m = false ∧
    exOk (Beam.jtok_equiv ⟨1, 1, 0⟩ (.quantity 5 .m)) = true :=
  ⟨rfl, rfl⟩

/-- Claim C9 (amended): `jtok_equiv` fails — with the `TypeError` the spec
maps to InvalidArgument — exactly when the supplied value is not a
unit-tagged quantity at all; every `Quantity`, whatever its unit, is
accepted and handed to the brightness-temperature collaborator. -/
theorem jtok_quantity_gate :
    ∀ (b : Beam) (f : FreqInput),
      (b.jtok_equiv f =
        .error (.typeError
          "freq must be a Quantity object. Try freq*u.Hz or another equivalent unit.")) ↔
        f.isQuantity = false := by
  intro b f
  cases f <;> simp [Beam.jtok_equiv, FreqInput.isQuantity]

end RadioBeam
